import Mathlib

/-!
A shallow embedding of the unbuffered terminal display mode of the ssd1306
driver crate (`src/displaysize.rs` and `src/mode/terminal.rs`).

The renderer talks to one collaborator, the addressing-window handle
(`DisplayProperties`), through `set_draw_area` and `draw`.  We model each
operation as a function from an oracle `ok : Nat -> Bool` -- giving the
success of the i-th collaborator call issued by the operation -- to the list
of calls actually issued together with the Rust `Result` (modelled as `Bool`,
`true` for `Ok(())`, since the error type is the unit type `()`).
-/

namespace Ssd1306

/-- The `DisplaySize` enumeration of `src/displaysize.rs`: the declared panel
variants. -/
inductive DisplaySize where
  | Display128x64
  | Display128x32
  | Display96x16
  | Quirk128x32
deriving DecidableEq, Repr

/-- `DisplaySize::dimensions` of `src/displaysize.rs`: pixel width and height
of each variant, as `u8` values (all below 256, so `Nat` is exact). -/
def DisplaySize.dimensions : DisplaySize → Nat × Nat
  | .Display128x64 => (128, 64)
  | .Display128x32 => (128, 32)
  | .Quirk128x32 => (128, 32)
  | .Display96x16 => (96, 16)

/-- One observable call to the addressing-window collaborator. -/
inductive Call where
  | setDrawArea (origin size : Nat × Nat)
  | draw (data : List Nat)
deriving DecidableEq, Repr

/-- `CharacterBitmap::to_bitmap` of `src/mode/terminal.rs`: the 7x7 font
table, one 8-byte column bitmap per character from 0x21 to 0x7D, all other
characters falling to the all-zero default arm.  Characters appearing in the
source as escaped or brace literals are written here with hex escapes
(0x22, 0x27, 0x5c, 0x60, 0x7b, 0x7d). -/
def to_bitmap (input : Char) : List Nat :=
  match input with
  | '!' => [0x00, 0x00, 0x5F, 0x00, 0x00, 0x00, 0x00, 0x00]
  | '\x22' => [0x00, 0x07, 0x00, 0x07, 0x00, 0x00, 0x00, 0x00]
  | '#' => [0x14, 0x7F, 0x14, 0x7F, 0x14, 0x00, 0x00, 0x00]
  | '$' => [0x24, 0x2A, 0x7F, 0x2A, 0x12, 0x00, 0x00, 0x00]
  | '%' => [0x23, 0x13, 0x08, 0x64, 0x62, 0x00, 0x00, 0x00]
  | '&' => [0x36, 0x49, 0x55, 0x22, 0x50, 0x00, 0x00, 0x00]
  | '\x27' => [0x00, 0x05, 0x03, 0x00, 0x00, 0x00, 0x00, 0x00]
  | '(' => [0x00, 0x1C, 0x22, 0x41, 0x00, 0x00, 0x00, 0x00]
  | ')' => [0x00, 0x41, 0x22, 0x1C, 0x00, 0x00, 0x00, 0x00]
  | '*' => [0x08, 0x2A, 0x1C, 0x2A, 0x08, 0x00, 0x00, 0x00]
  | '+' => [0x08, 0x08, 0x3E, 0x08, 0x08, 0x00, 0x00, 0x00]
  | ',' => [0x00, 0x50, 0x30, 0x00, 0x00, 0x00, 0x00, 0x00]
  | '-' => [0x00, 0x18, 0x18, 0x18, 0x18, 0x18, 0x00, 0x00]
  | '.' => [0x00, 0x60, 0x60, 0x00, 0x00, 0x00, 0x00, 0x00]
  | '/' => [0x20, 0x10, 0x08, 0x04, 0x02, 0x00, 0x00, 0x00]
  | '0' => [0x1C, 0x3E, 0x61, 0x41, 0x43, 0x3E, 0x1C, 0x00]
  | '1' => [0x40, 0x42, 0x7F, 0x7F, 0x40, 0x40, 0x00, 0x00]
  | '2' => [0x62, 0x73, 0x79, 0x59, 0x5D, 0x4F, 0x46, 0x00]
  | '3' => [0x20, 0x61, 0x49, 0x4D, 0x4F, 0x7B, 0x31, 0x00]
  | '4' => [0x18, 0x1C, 0x16, 0x13, 0x7F, 0x7F, 0x10, 0x00]
  | '5' => [0x27, 0x67, 0x45, 0x45, 0x45, 0x7D, 0x38, 0x00]
  | '6' => [0x3C, 0x7E, 0x4B, 0x49, 0x49, 0x79, 0x30, 0x00]
  | '7' => [0x03, 0x03, 0x71, 0x79, 0x0D, 0x07, 0x03, 0x00]
  | '8' => [0x36, 0x7F, 0x49, 0x49, 0x49, 0x7F, 0x36, 0x00]
  | '9' => [0x06, 0x4F, 0x49, 0x49, 0x69, 0x3F, 0x1E, 0x00]
  | ':' => [0x00, 0x36, 0x36, 0x00, 0x00, 0x00, 0x00, 0x00]
  | ';' => [0x00, 0x56, 0x36, 0x00, 0x00, 0x00, 0x00, 0x00]
  | '<' => [0x00, 0x08, 0x14, 0x22, 0x41, 0x00, 0x00, 0x00]
  | '=' => [0x14, 0x14, 0x14, 0x14, 0x14, 0x00, 0x00, 0x00]
  | '>' => [0x41, 0x22, 0x14, 0x08, 0x00, 0x00, 0x00, 0x00]
  | '?' => [0x02, 0x01, 0x51, 0x09, 0x06, 0x00, 0x00, 0x00]
  | '@' => [0x32, 0x49, 0x79, 0x41, 0x3E, 0x00, 0x00, 0x00]
  | 'A' => [0x7E, 0x11, 0x11, 0x11, 0x7E, 0x00, 0x00, 0x00]
  | 'B' => [0x7F, 0x49, 0x49, 0x49, 0x36, 0x00, 0x00, 0x00]
  | 'C' => [0x3E, 0x41, 0x41, 0x41, 0x22, 0x00, 0x00, 0x00]
  | 'D' => [0x7F, 0x7F, 0x41, 0x41, 0x63, 0x3E, 0x1C, 0x00]
  | 'E' => [0x7F, 0x49, 0x49, 0x49, 0x41, 0x00, 0x00, 0x00]
  | 'F' => [0x7F, 0x09, 0x09, 0x01, 0x01, 0x00, 0x00, 0x00]
  | 'G' => [0x3E, 0x41, 0x41, 0x51, 0x32, 0x00, 0x00, 0x00]
  | 'H' => [0x7F, 0x08, 0x08, 0x08, 0x7F, 0x00, 0x00, 0x00]
  | 'I' => [0x00, 0x41, 0x7F, 0x41, 0x00, 0x00, 0x00, 0x00]
  | 'J' => [0x20, 0x40, 0x41, 0x3F, 0x01, 0x00, 0x00, 0x00]
  | 'K' => [0x7F, 0x08, 0x14, 0x22, 0x41, 0x00, 0x00, 0x00]
  | 'L' => [0x7F, 0x7F, 0x40, 0x40, 0x40, 0x40, 0x00, 0x00]
  | 'M' => [0x7F, 0x02, 0x04, 0x02, 0x7F, 0x00, 0x00, 0x00]
  | 'N' => [0x7F, 0x04, 0x08, 0x10, 0x7F, 0x00, 0x00, 0x00]
  | 'O' => [0x3E, 0x7F, 0x41, 0x41, 0x41, 0x7F, 0x3E, 0x00]
  | 'P' => [0x7F, 0x09, 0x09, 0x09, 0x06, 0x00, 0x00, 0x00]
  | 'Q' => [0x3E, 0x41, 0x51, 0x21, 0x5E, 0x00, 0x00, 0x00]
  | 'R' => [0x7F, 0x7F, 0x11, 0x31, 0x79, 0x6F, 0x4E, 0x00]
  | 'S' => [0x46, 0x49, 0x49, 0x49, 0x31, 0x00, 0x00, 0x00]
  | 'T' => [0x01, 0x01, 0x7F, 0x01, 0x01, 0x00, 0x00, 0x00]
  | 'U' => [0x3F, 0x40, 0x40, 0x40, 0x3F, 0x00, 0x00, 0x00]
  | 'V' => [0x1F, 0x20, 0x40, 0x20, 0x1F, 0x00, 0x00, 0x00]
  | 'W' => [0x7F, 0x7F, 0x38, 0x1C, 0x38, 0x7F, 0x7F, 0x00]
  | 'X' => [0x63, 0x14, 0x08, 0x14, 0x63, 0x00, 0x00, 0x00]
  | 'Y' => [0x03, 0x04, 0x78, 0x04, 0x03, 0x00, 0x00, 0x00]
  | 'Z' => [0x61, 0x51, 0x49, 0x45, 0x43, 0x00, 0x00, 0x00]
  | '[' => [0x00, 0x00, 0x7F, 0x41, 0x41, 0x00, 0x00, 0x00]
  | '\x5c' => [0x02, 0x04, 0x08, 0x10, 0x20, 0x00, 0x00, 0x00]
  | ']' => [0x41, 0x41, 0x7F, 0x00, 0x00, 0x00, 0x00, 0x00]
  | '^' => [0x04, 0x02, 0x01, 0x02, 0x04, 0x00, 0x00, 0x00]
  | '_' => [0x40, 0x40, 0x40, 0x40, 0x40, 0x00, 0x00, 0x00]
  | '\x60' => [0x00, 0x01, 0x02, 0x04, 0x00, 0x00, 0x00, 0x00]
  | 'a' => [0x20, 0x54, 0x54, 0x54, 0x78, 0x00, 0x00, 0x00]
  | 'b' => [0x7F, 0x48, 0x44, 0x44, 0x38, 0x00, 0x00, 0x00]
  | 'c' => [0x38, 0x44, 0x44, 0x44, 0x20, 0x00, 0x00, 0x00]
  | 'd' => [0x38, 0x44, 0x44, 0x48, 0x7F, 0x00, 0x00, 0x00]
  | 'e' => [0x38, 0x54, 0x54, 0x54, 0x18, 0x00, 0x00, 0x00]
  | 'f' => [0x08, 0x7E, 0x09, 0x01, 0x02, 0x00, 0x00, 0x00]
  | 'g' => [0x08, 0x14, 0x54, 0x54, 0x3C, 0x00, 0x00, 0x00]
  | 'h' => [0x7F, 0x08, 0x04, 0x04, 0x78, 0x00, 0x00, 0x00]
  | 'i' => [0x00, 0x44, 0x7D, 0x40, 0x00, 0x00, 0x00, 0x00]
  | 'j' => [0x20, 0x40, 0x44, 0x3D, 0x00, 0x00, 0x00, 0x00]
  | 'k' => [0x00, 0x7F, 0x10, 0x28, 0x44, 0x00, 0x00, 0x00]
  | 'l' => [0x00, 0x41, 0x7F, 0x40, 0x00, 0x00, 0x00, 0x00]
  | 'm' => [0x7C, 0x04, 0x18, 0x04, 0x78, 0x00, 0x00, 0x00]
  | 'n' => [0x7C, 0x08, 0x04, 0x04, 0x78, 0x00, 0x00, 0x00]
  | 'o' => [0x38, 0x44, 0x44, 0x44, 0x38, 0x00, 0x00, 0x00]
  | 'p' => [0x7C, 0x14, 0x14, 0x14, 0x08, 0x00, 0x00, 0x00]
  | 'q' => [0x08, 0x14, 0x14, 0x18, 0x7C, 0x00, 0x00, 0x00]
  | 'r' => [0x7C, 0x08, 0x04, 0x04, 0x08, 0x00, 0x00, 0x00]
  | 's' => [0x48, 0x54, 0x54, 0x54, 0x20, 0x00, 0x00, 0x00]
  | 't' => [0x04, 0x3F, 0x44, 0x40, 0x20, 0x00, 0x00, 0x00]
  | 'u' => [0x3C, 0x40, 0x40, 0x20, 0x7C, 0x00, 0x00, 0x00]
  | 'v' => [0x1C, 0x20, 0x40, 0x20, 0x1C, 0x00, 0x00, 0x00]
  | 'w' => [0x3C, 0x40, 0x30, 0x40, 0x3C, 0x00, 0x00, 0x00]
  | 'x' => [0x00, 0x44, 0x28, 0x10, 0x28, 0x44, 0x00, 0x00]
  | 'y' => [0x0C, 0x50, 0x50, 0x50, 0x3C, 0x00, 0x00, 0x00]
  | 'z' => [0x44, 0x64, 0x54, 0x4C, 0x44, 0x00, 0x00, 0x00]
  | '\x7b' => [0x00, 0x08, 0x36, 0x41, 0x00, 0x00, 0x00, 0x00]
  | '|' => [0x00, 0x00, 0x7F, 0x00, 0x00, 0x00, 0x00, 0x00]
  | '\x7d' => [0x00, 0x41, 0x36, 0x08, 0x00, 0x00, 0x00, 0x00]
  | _ => [0x00, 0x00, 0x00, 0x00, 0x00, 0x00, 0x00, 0x00]

/-- The panel labels named by the capacity `match` at the top of
`TerminalMode::clear` (`src/mode/terminal.rs`, lines 171-176).  Note that the
source names `Display132x64`, which is not a declared `DisplaySize` variant,
and names no arm for the declared `Quirk128x32` variant. -/
inductive CapacityLabel where
  | Display128x64
  | Display132x64
  | Display128x32
  | Display96x16
deriving DecidableEq, Repr

/-- The cell count each arm of the capacity `match` in `clear` returns. -/
def capacityOfLabel : CapacityLabel → Nat
  | .Display128x64 => 128
  | .Display132x64 => 64
  | .Display128x32 => 64
  | .Display96x16 => 24

/-- Which arm of the capacity `match` in `clear` a declared variant selects.
`Quirk128x32` selects no arm: the source `match` is not exhaustive over the
declared `DisplaySize` variants. -/
def labelOfSize : DisplaySize → Option CapacityLabel
  | .Display128x64 => some .Display128x64
  | .Display128x32 => some .Display128x32
  | .Display96x16 => some .Display96x16
  | .Quirk128x32 => none

/-- The `numchars` value computed by `TerminalMode::clear`; `none` when the
variant reaches no arm of the capacity `match`. -/
def numchars (s : DisplaySize) : Option Nat := (labelOfSize s).map capacityOfLabel

/-- The all-zero 8-byte payload `&[0; 8]` streamed by `clear`. -/
def blankGlyph : List Nat := List.replicate 8 0

/-- The blank-streaming loop of `clear`: issue up to `n` `draw` calls of the
blank payload, starting at call index `idx`; a failing call is issued, then
the loop aborts (the `?` operator), returning the failure. -/
def clearLoop (ok : Nat → Bool) (idx : Nat) : Nat → List Call × Bool
  | 0 => ([], true)
  | n + 1 =>
    if ok idx then
      let r := clearLoop ok (idx + 1) n
      (Call.draw blankGlyph :: r.1, r.2)
    else
      ([Call.draw blankGlyph], false)

/-- `TerminalMode::clear`: look up the variant capacity, issue one
`set_draw_area` call with origin `(6, 32)` and the full panel dimensions,
then stream the blanks.  The result is `none` when the variant reaches no
capacity arm (the non-exhaustive source `match`; see `labelOfSize`). -/
def clear (size : DisplaySize) (ok : Nat → Bool) : Option (List Call × Bool) :=
  (numchars size).map fun n =>
    if ok 0 then
      let r := clearLoop ok 1 n
      (Call.setDrawArea (6, 32) size.dimensions :: r.1, r.2)
    else
      ([Call.setDrawArea (6, 32) size.dimensions], false)

/-- `TerminalMode::print_char`: one `draw` call carrying `to_bitmap c`; the
result of that call is returned unchanged. -/
def print_char (c : Char) (ok : Nat → Bool) : List Call × Bool :=
  ([Call.draw (to_bitmap c)], ok 0)

/-- `fmt::Write::write_str` for `TerminalMode`: run `print_char` on every
character in order (the iterator is driven to the end by `.last()`), discard
each per-character result (`r.2` below is not consulted), and return `Ok`. -/
def write_str : List Char → (Nat → Bool) → List Call × Bool
  | [], _ => ([], true)
  | c :: cs, ok =>
    let r := print_char c ok
    let rest := write_str cs (fun j => ok (j + 1))
    (r.1 ++ rest.1, true)

/-- `TerminalMode::flush`: a no-op, no collaborator calls, always `Ok(())`. -/
def flush : List Call × Bool := ([], true)

/-- When every collaborator call succeeds, the blank-streaming loop of `clear`
issues exactly `n` blank draws and reports success. -/
theorem clearLoop_all_ok (ok : Nat → Bool) (hok : ∀ i, ok i = true) :
    ∀ n idx, clearLoop ok idx n = (List.replicate n (Call.draw blankGlyph), true) := by
  intro n
  induction n with
  | zero => intro idx; rfl
  | succ m ih =>
    intro idx
    simp [clearLoop, hok idx, ih (idx + 1), List.replicate_succ]

/-- When the draws at indices `idx .. idx+k-1` succeed and the draw at index
`idx+k` fails, with at least `k+1` draws requested, the blank-streaming loop
issues exactly `k+1` draws (the failing one included) and reports failure. -/
theorem clearLoop_fail (ok : Nat → Bool) :
    ∀ k idx n, (∀ j, j < k → ok (idx + j) = true) → ok (idx + k) = false → k < n →
    clearLoop ok idx n = (List.replicate (k + 1) (Call.draw blankGlyph), false) := by
  intro k
  induction k with
  | zero =>
    intro idx n _ hfail hlt
    match n, hlt with
    | m + 1, _ =>
      have h0 : ok idx = false := by simpa using hfail
      simp [clearLoop, h0]
  | succ p ih =>
    intro idx n hsucc hfail hlt
    match n, hlt with
    | m + 1, hlt =>
      have h0 : ok idx = true := by simpa using hsucc 0 (Nat.succ_pos p)
      have hrec := ih (idx + 1) m
        (fun j hj => by
          have := hsucc (j + 1) (Nat.succ_lt_succ hj)
          simpa [Nat.add_assoc, Nat.add_comm 1 j] using this)
        (by simpa [Nat.add_assoc, Nat.add_comm 1 p] using hfail)
        (Nat.lt_of_succ_lt_succ hlt)
      simp [clearLoop, h0, hrec, List.replicate_succ]

/-- Claim C1: for every panel variant whose glyph-capacity mapping yields `N`
(128 for `Display128x64`, 64 for `Display128x32`, 24 for `Display96x16`),
`clear` issues exactly one `set_draw_area` call with origin `(6, 32)` and the
variant's full pixel dimensions as size, followed by exactly `N` draw calls
each carrying the all-zero 8-byte payload, and returns success when no call
failed. -/
theorem clear_streams_blanks (ok : Nat → Bool) (hok : ∀ i, ok i = true) :
    numchars DisplaySize.Display128x64 = some 128 ∧
    numchars DisplaySize.Display128x32 = some 64 ∧
    numchars DisplaySize.Display96x16 = some 24 ∧
    ∀ size n, numchars size = some n →
      clear size ok = some
        (Call.setDrawArea (6, 32) size.dimensions ::
          List.replicate n (Call.draw blankGlyph), true) := by
  refine ⟨rfl, rfl, rfl, ?_⟩
  intro size n hn
  simp [clear, hn, hok 0, clearLoop_all_ok ok hok n 1]

/-- Witness for C1: on the 96x16 variant with an always-succeeding
collaborator, `clear` issues the `set_draw_area` call and exactly 24 blank
draws, then succeeds. -/
theorem clear_streams_blanks_witness :
    clear DisplaySize.Display96x16 (fun _ => true) = some
      (Call.setDrawArea (6, 32) (96, 16) ::
        List.replicate 24 (Call.draw blankGlyph), true) :=
  (clear_streams_blanks (fun _ => true) (fun _ => rfl)).2.2.2
    DisplaySize.Display96x16 24 rfl

/-- Claim C2 (refuted as stated; the code is the slip): the capacity `match`
in `clear` does not assign a cell count to every declared variant: the
declared `Quirk128x32` reaches no arm, so `clear` on it is undefined, and the
arm labelled `Display132x64` is selected by no declared variant. -/
theorem capacity_match_not_exhaustive :
    numchars DisplaySize.Quirk128x32 = none ∧
    clear DisplaySize.Quirk128x32 (fun _ => true) = none ∧
    ∀ s : DisplaySize,
      decide (labelOfSize s = some CapacityLabel.Display132x64) = false := by
  refine ⟨rfl, rfl, ?_⟩
  intro s
  cases s <;> rfl

set_option maxHeartbeats 4000000 in
/-- Claim C3: `to_bitmap` is total and returns the all-zero 8-byte bitmap for
every Unicode scalar value outside the printable range 0x21 to 0x7D. -/
theorem to_bitmap_blank_outside_table (c : Char)
    (h : c.toNat < 0x21 ∨ 0x7D < c.toNat) :
    to_bitmap c = List.replicate 8 0 := by
  unfold to_bitmap
  split
  all_goals first
  | rfl
  | exact absurd h (by decide)

/-- Witness for C3: the space character (0x20) maps to the blank bitmap. -/
theorem to_bitmap_blank_witness : to_bitmap '\x20' = List.replicate 8 0 :=
  to_bitmap_blank_outside_table '\x20' (Or.inl (by decide))

set_option maxHeartbeats 4000000 in
/-- Claim C4: every documented character maps to its literal 8-byte sequence;
in particular the glyphs of `A` and `5`, and every bitmap has exactly 8
bytes. -/
theorem to_bitmap_exact_glyphs :
    to_bitmap 'A' = [0x7E, 0x11, 0x11, 0x11, 0x7E, 0x00, 0x00, 0x00] ∧
    to_bitmap '5' = [0x27, 0x67, 0x45, 0x45, 0x45, 0x7D, 0x38, 0x00] ∧
    ∀ c : Char, (to_bitmap c).length = 8 := by
  refine ⟨rfl, rfl, ?_⟩
  intro c
  unfold to_bitmap
  split <;> rfl

/-- Claim C5: `print_char c` issues exactly one draw call whose payload is
the 8 bytes of `to_bitmap c`, makes no other collaborator call, and returns
the result of that draw call unchanged; in particular for the character
`5`. -/
theorem print_char_forwards_glyph (c : Char) (ok : Nat → Bool) :
    print_char c ok = ([Call.draw (to_bitmap c)], ok 0) ∧
    print_char '5' ok =
      ([Call.draw [0x27, 0x67, 0x45, 0x45, 0x45, 0x7D, 0x38, 0x00]], ok 0) :=
  ⟨rfl, rfl⟩

/-- Claim C6: if the `k`-th blank draw of `clear` fails (draws being the
collaborator calls after the single `set_draw_area` call), `clear` returns
that failure at once: the trace holds exactly `k` draw calls, so draws
`k+1 .. N` never happen, and nothing is rolled back. -/
theorem clear_aborts_on_failed_draw (size : DisplaySize) (ok : Nat → Bool)
    (n k : Nat) (hn : numchars size = some n)
    (hk1 : 1 ≤ k) (hkn : k ≤ n)
    (harea : ok 0 = true)
    (hsucc : ∀ j, 1 ≤ j → j < k → ok j = true)
    (hfail : ok k = false) :
    clear size ok = some
      (Call.setDrawArea (6, 32) size.dimensions ::
        List.replicate k (Call.draw blankGlyph), false) := by
  obtain ⟨p, rfl⟩ : ∃ p, k = p + 1 := ⟨k - 1, (Nat.succ_pred_eq_of_pos hk1).symm⟩
  have hloop := clearLoop_fail ok p 1 n
    (fun j hj => hsucc (1 + j) (Nat.le_add_right 1 j)
      (by simpa [Nat.add_comm 1 j] using Nat.add_lt_add_right hj 1))
    (by simpa [Nat.add_comm 1 p] using hfail)
    (Nat.lt_of_lt_of_le (Nat.lt_succ_self p) hkn)
  simp [clear, hn, harea, hloop]

/-- Witness for C6: on the 96x16 variant, when the third draw fails (call
indices 1 and 2 succeed, call index 3 fails), `clear` stops after exactly 3
draw calls and reports the failure. -/
theorem clear_aborts_witness :
    clear DisplaySize.Display96x16 (fun i => decide (i < 3)) = some
      (Call.setDrawArea (6, 32) (96, 16) ::
        List.replicate 3 (Call.draw blankGlyph), false) :=
  clear_aborts_on_failed_draw DisplaySize.Display96x16 (fun i => decide (i < 3))
    24 3 rfl (by decide) (by decide) (by decide)
    (fun j _ hj => by simpa using hj) (by decide)

/-- Claim C7: `write_str` prints each character in order (one draw per
character, in sequence order), its trace does not depend on individual
failures, and it always returns success -- so the draw for `b` is issued even
when the draw for `a` fails. -/
theorem write_str_best_effort (s : List Char) (ok : Nat → Bool) :
    write_str s ok = (s.map fun c => Call.draw (to_bitmap c), true) ∧
    write_str ['a', 'b'] (fun _ => false) =
      ([Call.draw (to_bitmap 'a'), Call.draw (to_bitmap 'b')], true) := by
  refine ⟨?_, rfl⟩
  induction s generalizing ok with
  | nil => rfl
  | cons c cs ih => simp [write_str, print_char, ih]

/-- Claim C8: `dimensions` is a total pure accessor returning the literal
pixel pair of each declared variant. -/
theorem dimensions_literal :
    DisplaySize.Display128x64.dimensions = (128, 64) ∧
    DisplaySize.Display128x32.dimensions = (128, 32) ∧
    DisplaySize.Quirk128x32.dimensions = (128, 32) ∧
    DisplaySize.Display96x16.dimensions = (96, 16) :=
  ⟨rfl, rfl, rfl, rfl⟩

/-- Claim C9: `flush` issues zero collaborator calls and always returns
success. -/
theorem flush_no_calls : flush = ([], true) := rfl

set_option maxHeartbeats 4000000 in
/-- Claim C10: every glyph fits a 7x7 region of the 8x8 cell: byte 7 of
`to_bitmap c` is 0, and every byte is at most 0x7F (bit 7 clear). -/
theorem to_bitmap_fits_7x7 (c : Char) :
    (to_bitmap c).getD 7 0 = 0 ∧
    (to_bitmap c).all (fun b => decide (b ≤ 0x7F)) = true := by
  unfold to_bitmap
  split <;> exact ⟨rfl, rfl⟩

end Ssd1306
